import Mathlib

/-!
# GoQuest media player: a shallow embedding of `src/App.jsx`

The handlers of the four components of `App.jsx` (`VideoPlayer`,
`AudioRecorder`, `DialogueDisplay`, `Navigation`) are embedded as pure
functions over explicit component state.

Conventions of the embedding.

* A JavaScript number is a `JSNum`: an exact rational, `+Infinity`,
  `-Infinity` or `NaN`.  Finite arithmetic is exact (the rounding of IEEE
  doubles is abstracted away) and `-0` is identified with `0`; the special
  values follow IEEE 754, so `0 / 0` is `NaN` and `x / 0` is infinite.
* A React ref is an `Option`: `none` is a `null` ref, and reading a property
  of a `null` ref is the `TypeError` of JavaScript.
* A media element is a record of the three properties the handlers touch.
  `play()` clears `paused`, `pause()` sets it, and the `currentTime` setter
  is the one of the HTML standard: a value that is not finite is a
  `TypeError`, and a finite one is a seek, which the element keeps inside its
  own media (between 0 and its own `duration`).
* A click on the seek bar is dispatched by the browser to the innermost
  element under the pointer, the bar or the fill inside it; the handler reads
  the offset and the width of that target.
* A closure is its code together with the values it captured when it was
  created; React state read inside a handler is the value of the render in
  which the handler was created.
-/

namespace GoQuest

/-! ## JavaScript numbers -/

/-- A JavaScript number: finite (exact rational), the two infinities, or NaN. -/
inductive JSNum where
  | fin (q : ℚ)
  | posInf
  | negInf
  | nan
  deriving DecidableEq

namespace JSNum

/-- JavaScript `a / b`. -/
def div : JSNum → JSNum → JSNum
  | nan, _ => nan
  | _, nan => nan
  | fin a, fin b =>
      if b = 0 then (if a = 0 then nan else if 0 < a then posInf else negInf)
      else fin (a / b)
  | fin _, posInf => fin 0
  | fin _, negInf => fin 0
  | posInf, fin b => if 0 ≤ b then posInf else negInf
  | negInf, fin b => if 0 ≤ b then negInf else posInf
  | posInf, posInf => nan
  | posInf, negInf => nan
  | negInf, posInf => nan
  | negInf, negInf => nan

/-- JavaScript `a * b`. -/
def mul : JSNum → JSNum → JSNum
  | nan, _ => nan
  | _, nan => nan
  | fin a, fin b => fin (a * b)
  | fin a, posInf => if a = 0 then nan else if 0 < a then posInf else negInf
  | fin a, negInf => if a = 0 then nan else if 0 < a then negInf else posInf
  | posInf, fin b => if b = 0 then nan else if 0 < b then posInf else negInf
  | negInf, fin b => if b = 0 then nan else if 0 < b then negInf else posInf
  | posInf, posInf => posInf
  | posInf, negInf => negInf
  | negInf, posInf => negInf
  | negInf, negInf => posInf

/-- JavaScript `a <= b`: false as soon as one side is NaN. -/
def le : JSNum → JSNum → Bool
  | nan, _ => false
  | _, nan => false
  | fin a, fin b => decide (a ≤ b)
  | negInf, _ => true
  | _, posInf => true
  | posInf, _ => false
  | _, negInf => false

/-- JavaScript `a < b`: false as soon as one side is NaN. -/
def lt : JSNum → JSNum → Bool
  | nan, _ => false
  | _, nan => false
  | fin a, fin b => decide (a < b)
  | posInf, _ => false
  | _, negInf => false
  | negInf, _ => true
  | _, posInf => true

end JSNum

/-! ## VideoPlayer (`App.jsx`, lines 8-69) -/

/-- The exception a handler can raise: reading a property of `null`. -/
inductive JSError where
  | typeError
  deriving DecidableEq

/-- The properties of a `<video>` / `<audio>` element that the handlers use. -/
structure MediaElement where
  currentTime : JSNum
  duration : JSNum
  paused : Bool
  deriving DecidableEq

/-- The element's `play()`: the element is no longer paused. -/
def MediaElement.play (m : MediaElement) : MediaElement :=
  { m with paused := false }

/-- The element's `pause()`: the element is paused. -/
def MediaElement.pause (m : MediaElement) : MediaElement :=
  { m with paused := true }

/-- Where the seek algorithm of an element puts a requested position `t`:
not later than the end of the media and not before its start.  A stream
without an end (`duration` = +Infinity) is bounded below only.  While no
metadata is loaded (`duration` = NaN) there is no seek: the element keeps the
value as its default playback start position, which `currentTime` reads back. -/
def seekPosition (duration : JSNum) (t : ℚ) : ℚ :=
  match duration with
  | JSNum.fin d => max 0 (min t d)
  | JSNum.posInf => max 0 t
  | _ => t

/-- The element's `currentTime` setter.  The attribute is a restricted
double: NaN and the infinities are a `TypeError` and nothing is written; a
finite value is a seek to `seekPosition`. -/
def MediaElement.setCurrentTime (m : MediaElement) (value : JSNum) :
    Except JSError MediaElement :=
  match value with
  | JSNum.fin t => Except.ok { m with currentTime := JSNum.fin (seekPosition m.duration t) }
  | _ => Except.error JSError.typeError

/-- Which of the two refs a command went to. -/
inductive Clock where
  | video
  | audio
  deriving DecidableEq

/-- A command sent to a media element by a handler. -/
inductive Call where
  | play (target : Clock)
  | pause (target : Clock)
  | setCurrentTime (target : Clock) (value : JSNum)
  deriving DecidableEq

/-- State seen by the `VideoPlayer` handlers: the two refs, the two context
values they set, and the commands issued so far (oldest first).
`audioRef` is `none` as long as `audioSrc` is falsy, since the `<audio>`
element is then not rendered (line 52). -/
structure VideoPlayer where
  videoRef : Option MediaElement
  audioRef : Option MediaElement
  isPlaying : Bool
  progress : JSNum
  calls : List Call
  deriving DecidableEq

/-- The guarded statement `if (audioRef.current) audioRef.current.play()`. -/
def audioPlay (s : VideoPlayer) : VideoPlayer :=
  match s.audioRef with
  | some a => { s with audioRef := some a.play, calls := s.calls ++ [Call.play Clock.audio] }
  | none => s

/-- The guarded statement `if (audioRef.current) audioRef.current.pause()`. -/
def audioPause (s : VideoPlayer) : VideoPlayer :=
  match s.audioRef with
  | some a => { s with audioRef := some a.pause, calls := s.calls ++ [Call.pause Clock.audio] }
  | none => s

/-- The guarded statement
`if (audioRef.current) audioRef.current.currentTime = position`. -/
def audioSeek (position : JSNum) (s : VideoPlayer) : Except JSError VideoPlayer :=
  match s.audioRef with
  | some a =>
      match a.setCurrentTime position with
      | Except.error err => Except.error err
      | Except.ok a1 =>
          Except.ok
            { s with
              audioRef := some a1
              calls := s.calls ++ [Call.setCurrentTime Clock.audio position] }
  | none => Except.ok s

/-- `togglePlay` (lines 14-24). -/
def togglePlay (s : VideoPlayer) : Except JSError VideoPlayer :=
  match s.videoRef with
  | none => Except.error JSError.typeError
  | some v =>
      if v.paused then
        let s1 := { s with videoRef := some v.play, calls := s.calls ++ [Call.play Clock.video] }
        let s2 := audioPlay s1
        Except.ok { s2 with isPlaying := true }
      else
        let s1 := { s with videoRef := some v.pause, calls := s.calls ++ [Call.pause Clock.video] }
        let s2 := audioPause s1
        Except.ok { s2 with isPlaying := false }

/-- `handleProgress` (lines 26-30). -/
def handleProgress (s : VideoPlayer) : Except JSError VideoPlayer :=
  match s.videoRef with
  | none => Except.error JSError.typeError
  | some v =>
      let progress := JSNum.mul (JSNum.div v.currentTime v.duration) (JSNum.fin 100)
      Except.ok { s with progress := progress }

/-- The click event as `handleSeek` reads it: `e.nativeEvent.offsetX` and
`e.target.offsetWidth`. -/
structure SeekEvent where
  offsetX : JSNum
  offsetWidth : JSNum
  deriving DecidableEq

/-- `handleSeek` (lines 32-39). -/
def handleSeek (e : SeekEvent) (s : VideoPlayer) : Except JSError VideoPlayer :=
  match s.videoRef with
  | none => Except.error JSError.typeError
  | some v =>
      let position := JSNum.mul (JSNum.div e.offsetX e.offsetWidth) v.duration
      match v.setCurrentTime position with
      | Except.error err => Except.error err
      | Except.ok v1 =>
          audioSeek position
            { s with
              videoRef := some v1
              calls := s.calls ++ [Call.setCurrentTime Clock.video position] }

/-- The rendered seek bar (lines 57-65): the bar `div`, `barWidth` pixels
wide, and inside it, from its left edge and over its whole height, the fill
`div`, `fillWidth` pixels wide (`progress` percent of the bar, line 63). -/
structure SeekBar where
  barWidth : ℚ
  fillWidth : ℚ
  deriving DecidableEq

/-- The click event for a pointer `pointerX` pixels right of the bar's left
edge.  The target is the innermost element under the pointer: the fill on the
played part, the bar elsewhere; `offsetX` is relative to the target, and both
elements start at the same left edge. -/
def SeekBar.click (bar : SeekBar) (pointerX : ℚ) : SeekEvent :=
  if 0 ≤ pointerX ∧ pointerX < bar.fillWidth then
    { offsetX := JSNum.fin pointerX, offsetWidth := JSNum.fin bar.fillWidth }
  else
    { offsetX := JSNum.fin pointerX, offsetWidth := JSNum.fin bar.barWidth }

/-- Two presses of the play button in a row. -/
def togglePlayTwice (s : VideoPlayer) : Except JSError VideoPlayer :=
  togglePlay s >>= togglePlay

/-- The positions of the two clocks: video first, audio second (each `none`
when its ref is `null`). -/
def clockPositions (s : VideoPlayer) : Option JSNum × Option JSNum :=
  (s.videoRef.map (fun m => m.currentTime), s.audioRef.map (fun m => m.currentTime))

/-- The two clocks as a whole: the video element and the audio element. -/
def clockStates (s : VideoPlayer) : Option MediaElement × Option MediaElement :=
  (s.videoRef, s.audioRef)

/-! ## AudioRecorder (`App.jsx`, lines 71-167) -/

/-- A `Blob`, as the sequence of its bytes. -/
abbrev Blob := List Nat

/-- The `size` property of a `Blob`. -/
def Blob.size (b : Blob) : Nat := b.length

/-- The constructor `new Blob(parts)`: the parts one after the other. -/
def Blob.ofParts (parts : List Blob) : Blob :=
  parts.foldr (fun part acc => part ++ acc) []

/-- The `MediaRecorder` held by `mediaRecorderRef`, with its `onstop`
handler in closure-converted form: `onstopChunks` is the value of the
`audioChunks` variable that the handler captured when `startRecording`
created it (line 90 reads that variable). -/
structure MediaRecorder where
  recording : Bool
  onstopChunks : List Blob
  deriving DecidableEq

/-- State seen by the `AudioRecorder` handlers: the component state
`audioChunks`, the recorder ref and the two context values.  An object URL
is identified with the `Blob` it was created for.  The waveform drawing
(`visualize`, lines 111-149) reads and writes none of these and is left out. -/
structure AudioRecorder where
  audioChunks : List Blob
  mediaRecorderRef : Option MediaRecorder
  isRecording : Bool
  audioSrc : Option Blob
  deriving DecidableEq

/-- The state of `App` and `AudioRecorder` at mount (lines 73, 281, 283). -/
def AudioRecorder.initial : AudioRecorder :=
  { audioChunks := [], mediaRecorderRef := none, isRecording := false, audioSrc := none }

/-- `startRecording` (lines 78-101).  `granted` tells whether `getUserMedia`
resolved; when it rejects, the `catch` only logs. -/
def startRecording (granted : Bool) (s : AudioRecorder) : AudioRecorder :=
  if granted then
    { s with
      mediaRecorderRef := some { recording := true, onstopChunks := s.audioChunks }
      isRecording := true }
  else s

/-- The `ondataavailable` handler (lines 83-87). -/
def ondataavailable (data : Blob) (s : AudioRecorder) : AudioRecorder :=
  if data.size > 0 then { s with audioChunks := s.audioChunks ++ [data] } else s

/-- The `onstop` handler (lines 89-93), applied to the `audioChunks` it captured. -/
def onstop (capturedChunks : List Blob) (s : AudioRecorder) : AudioRecorder :=
  { s with audioSrc := some (Blob.ofParts capturedChunks) }

/-- `stopRecording` (lines 103-109). -/
def stopRecording (s : AudioRecorder) : AudioRecorder :=
  match s.mediaRecorderRef with
  | some r =>
      if s.isRecording then
        { s with mediaRecorderRef := some { r with recording := false }, isRecording := false }
      else s
  | none => s

/-- What can happen to the recorder: a click on the record button (with the
answer of the microphone prompt, used when the click starts a recording), a
`dataavailable` event and a `stop` event of the current `MediaRecorder`. -/
inductive RecorderEvent where
  | click (granted : Bool)
  | dataavailable (data : Blob)
  | stop
  deriving DecidableEq

/-- One event.  The button runs `isRecording ? stopRecording : startRecording`
(line 154); the two recorder events run the handlers installed on the
recorder of `mediaRecorderRef`. -/
def AudioRecorder.step (s : AudioRecorder) : RecorderEvent → AudioRecorder
  | RecorderEvent.click granted => if s.isRecording then stopRecording s else startRecording granted s
  | RecorderEvent.dataavailable data =>
      match s.mediaRecorderRef with
      | some _ => ondataavailable data s
      | none => s
  | RecorderEvent.stop =>
      match s.mediaRecorderRef with
      | some r => onstop r.onstopChunks s
      | none => s

/-- A sequence of events, oldest first. -/
def AudioRecorder.run (s : AudioRecorder) (events : List RecorderEvent) : AudioRecorder :=
  events.foldl AudioRecorder.step s

/-- One capture session: the click that starts it (microphone granted), the
click that stops it, the chunks the recorder delivers, and its `stop` event.
`start()` is called without a timeslice (line 95), so the recorder delivers
its data after `stop()` was called and before the `stop` event. -/
def captureSession (chunks : List Blob) : List RecorderEvent :=
  [RecorderEvent.click true, RecorderEvent.click true]
    ++ chunks.map RecorderEvent.dataavailable ++ [RecorderEvent.stop]

/-! ## DialogueDisplay and Navigation (`App.jsx`, lines 169-249) -/

/-- A dialogue object; `none` is a property the object does not have. -/
structure DialogueEntry where
  original : Option String
  translated : Option String
  deriving DecidableEq

/-- A JavaScript array of dialogue objects; `none` is a hole, read as `undefined`. -/
abbrev Dialogues := List (Option DialogueEntry)

/-- The read `arr[i]`: `undefined` outside the array. -/
def Dialogues.read (arr : Dialogues) (i : Int) : Option DialogueEntry :=
  if i < 0 then none else (arr.get? i.toNat).join

/-- The write `arr[i] = v` on the elements of the array: inside the array it
replaces the element, past the end it grows the array (leaving holes), and a
negative `i` is not an element index, so the elements stay as they are. -/
def Dialogues.assign (arr : Dialogues) (i : Int) (v : DialogueEntry) : Dialogues :=
  if i < 0 then arr
  else if i.toNat < arr.length then arr.set i.toNat (some v)
  else arr ++ List.replicate (i.toNat - arr.length) none ++ [some v]

/-- The object spread `{...x}`: the properties of `x`, none for `undefined`. -/
def spread : Option DialogueEntry → DialogueEntry
  | some entry => entry
  | none => { original := none, translated := none }

/-- State seen by the `DialogueDisplay` handlers: the two local text states
and the two context values. -/
structure DialogueDisplay where
  originalText : String
  translatedText : String
  dialogues : Dialogues
  currentDialogueIndex : Int
  deriving DecidableEq

/-- `handleOriginalTextChange` (lines 179-189), `value` being `e.target.value`. -/
def handleOriginalTextChange (value : String) (s : DialogueDisplay) : DialogueDisplay :=
  let newDialogues := s.dialogues
  { s with
    originalText := value
    dialogues :=
      newDialogues.assign s.currentDialogueIndex
        { spread (newDialogues.read s.currentDialogueIndex) with original := some value } }

/-- `handleTranslatedTextChange` (lines 191-201), `value` being `e.target.value`. -/
def handleTranslatedTextChange (value : String) (s : DialogueDisplay) : DialogueDisplay :=
  let newDialogues := s.dialogues
  { s with
    translatedText := value
    dialogues :=
      newDialogues.assign s.currentDialogueIndex
        { spread (newDialogues.read s.currentDialogueIndex) with translated := some value } }

/-- State seen by `Navigation`. -/
structure Navigation where
  currentDialogueIndex : Int
  dialogues : Dialogues
  deriving DecidableEq

/-- The `onClick` of the Previous button (lines 228-230). -/
def Navigation.previous (s : Navigation) : Navigation :=
  { s with currentDialogueIndex := max (s.currentDialogueIndex - 1) 0 }

/-- The `onClick` of the Next button (lines 237-241). -/
def Navigation.next (s : Navigation) : Navigation :=
  { s with currentDialogueIndex := min (s.currentDialogueIndex + 1) ((s.dialogues.length : Int) - 1) }

/-- The `disabled` attribute of the Previous button (line 231). -/
def Navigation.previousDisabled (s : Navigation) : Bool :=
  decide (s.currentDialogueIndex = 0)

/-- The `disabled` attribute of the Next button (line 242). -/
def Navigation.nextDisabled (s : Navigation) : Bool :=
  decide (s.currentDialogueIndex = (s.dialogues.length : Int) - 1)

/-- The dialogues `App` starts with (lines 285-291). -/
def App.initialDialogues : Dialogues :=
  [ some { original := some "Hello, how are you?", translated := some "Hola, ¿cómo estás?" },
    some { original := some "I'm fine, thank you.", translated := some "Estoy bien, gracias." },
    some { original := some "What's your name?", translated := some "¿Cómo te llamas?" },
    some { original := some "Nice to meet you.", translated := some "Encantado de conocerte." },
    some { original := some "Goodbye!", translated := some "¡Adiós!" } ]

/-- The navigation state `App` starts with (line 284). -/
def Navigation.initial : Navigation :=
  { currentDialogueIndex := 0, dialogues := App.initialDialogues }

/-- The Next button pressed `n` times. -/
def Navigation.nextTimes : Nat → Navigation → Navigation
  | 0, s => s
  | n + 1, s => Navigation.nextTimes n s.next


/-! ## Concrete states used by the examples below -/

/-- A paused 60-second video at position 0. -/
def sampleVideo : MediaElement :=
  { currentTime := JSNum.fin 0, duration := JSNum.fin 60, paused := true }

/-- A paused 60-second recording at position 0. -/
def sampleAudio : MediaElement :=
  { currentTime := JSNum.fin 0, duration := JSNum.fin 60, paused := true }

/-- The player right after mount with a recording bound. -/
def samplePlayer : VideoPlayer :=
  { videoRef := some sampleVideo, audioRef := some sampleAudio, isPlaying := false,
    progress := JSNum.fin 0, calls := [] }

/-- The player right after mount, no recording made yet. -/
def samplePlayerNoAudio : VideoPlayer :=
  { videoRef := some sampleVideo, audioRef := none, isPlaying := false,
    progress := JSNum.fin 0, calls := [] }

/-- The player with a 20-second recording bound, shorter than the video. -/
def samplePlayerShortAudio : VideoPlayer :=
  { samplePlayer with audioRef := some { sampleAudio with duration := JSNum.fin 20 } }

/-- The player with a 100-second recording bound, longer than the video. -/
def samplePlayerLongAudio : VideoPlayer :=
  { samplePlayer with audioRef := some { sampleAudio with duration := JSNum.fin 100 } }

/-- The player with a recording bound whose metadata has not loaded yet. -/
def samplePlayerUnloadedAudio : VideoPlayer :=
  { samplePlayer with audioRef := some { sampleAudio with duration := JSNum.nan } }

/-- The dialogue editor showing the second of the initial dialogues. -/
def sampleDisplay : DialogueDisplay :=
  { originalText := "I'm fine, thank you.", translatedText := "Estoy bien, gracias.",
    dialogues := App.initialDialogues, currentDialogueIndex := 1 }

/-! ## VideoPlayer: seek -/

/-- What `handleSeek` returns for a finite offset, width and video duration:
both setters receive `(offsetX / offsetWidth) * duration`, and each element
seeks inside its own media. -/
theorem handleSeek_finite (s : VideoPlayer) (v : MediaElement) (offset width duration : ℚ)
    (hv : s.videoRef = some v) (hd : v.duration = JSNum.fin duration) (hw : width ≠ 0) :
    handleSeek { offsetX := JSNum.fin offset, offsetWidth := JSNum.fin width } s =
      Except.ok
        { s with
          videoRef := some
            { v with currentTime := JSNum.fin (max 0 (min (offset / width * duration) duration)) }
          audioRef := s.audioRef.map (fun a =>
            { a with currentTime := JSNum.fin (seekPosition a.duration (offset / width * duration)) })
          calls := s.calls ++
            [Call.setCurrentTime Clock.video (JSNum.fin (offset / width * duration))] ++
            (match s.audioRef with
              | some _ => [Call.setCurrentTime Clock.audio (JSNum.fin (offset / width * duration))]
              | none => []) } := by
  cases s with
  | mk videoRef audioRef isPlaying progress calls =>
    simp only at hv
    subst hv
    cases audioRef <;>
      simp [handleSeek, audioSeek, MediaElement.setCurrentTime, seekPosition, hd,
        JSNum.div, JSNum.mul, hw]

/-- The two clocks after a seek with finite offset, width and video duration. -/
theorem clockStates_handleSeek (s : VideoPlayer) (v : MediaElement)
    (offset width duration : ℚ)
    (hv : s.videoRef = some v) (hd : v.duration = JSNum.fin duration) (hw : width ≠ 0) :
    (handleSeek { offsetX := JSNum.fin offset, offsetWidth := JSNum.fin width } s).map
        clockStates =
      Except.ok
        (some { v with currentTime := JSNum.fin (max 0 (min (offset / width * duration) duration)) },
          s.audioRef.map (fun a =>
            { a with
              currentTime := JSNum.fin (seekPosition a.duration (offset / width * duration)) })) := by
  rw [handleSeek_finite s v offset width duration hv hd hw]
  simp [Except.map, clockStates]

/-- The positions of the two clocks after a seek with finite offset, width
and video duration. -/
theorem clockPositions_handleSeek (s : VideoPlayer) (v : MediaElement)
    (offset width duration : ℚ)
    (hv : s.videoRef = some v) (hd : v.duration = JSNum.fin duration) (hw : width ≠ 0) :
    (handleSeek { offsetX := JSNum.fin offset, offsetWidth := JSNum.fin width } s).map
        clockPositions =
      Except.ok
        (some (JSNum.fin (max 0 (min (offset / width * duration) duration))),
          s.audioRef.map (fun a =>
            JSNum.fin (seekPosition a.duration (offset / width * duration)))) := by
  rw [handleSeek_finite s v offset width duration hv hd hw]
  cases ha : s.audioRef <;> simp [Except.map, clockPositions, ha]

/-- The event of a click that lands on the bar itself, right of the fill. -/
theorem SeekBar.click_on_bar (bar : SeekBar) (pointerX : ℚ) (htarget : bar.fillWidth ≤ pointerX) :
    bar.click pointerX =
      { offsetX := JSNum.fin pointerX, offsetWidth := JSNum.fin bar.barWidth } := by
  have hnot : ¬ (0 ≤ pointerX ∧ pointerX < bar.fillWidth) := fun h => absurd h.2 (not_lt.mpr htarget)
  simp [SeekBar.click, hnot]

/-- Claim C1, counterexample.  First, a 100-pixel bar whose fill is 25 pixels
wide, the pointer 10 pixels from the left edge, a 60-second video: the
fraction of the bar is 1/10 and f * duration is 6 seconds, but the click lands
on the fill and both clocks end at 24 seconds.  Second, a click at 50 of 100
pixels on the bar with a 20-second recording bound: the primary clock ends at
30 seconds and the secondary clock at 20 seconds. -/
theorem handleSeek_sets_both_clocks_counterexample :
    (handleSeek (SeekBar.click { barWidth := 100, fillWidth := 25 } 10) samplePlayer).map
        clockPositions = Except.ok (some (JSNum.fin 24), some (JSNum.fin 24)) ∧
    JSNum.fin 24 ≠ JSNum.fin ((10 : ℚ) / 100 * 60) ∧
    (handleSeek (SeekBar.click { barWidth := 100, fillWidth := 0 } 50)
        samplePlayerShortAudio).map
        clockPositions = Except.ok (some (JSNum.fin 30), some (JSNum.fin 20)) ∧
    JSNum.fin 20 ≠ JSNum.fin 30 := by
  have hfill : SeekBar.click { barWidth := 100, fillWidth := 25 } 10 =
      { offsetX := JSNum.fin 10, offsetWidth := JSNum.fin 25 } := by
    norm_num [SeekBar.click]
  have hbar : SeekBar.click { barWidth := 100, fillWidth := 0 } 50 =
      { offsetX := JSNum.fin 50, offsetWidth := JSNum.fin 100 } := by
    norm_num [SeekBar.click]
  have haudio : samplePlayer.audioRef = some sampleAudio := rfl
  have hshort : samplePlayerShortAudio.audioRef =
      some { sampleAudio with duration := JSNum.fin 20 } := rfl
  have h1 := clockPositions_handleSeek samplePlayer sampleVideo 10 25 60 rfl rfl (by norm_num)
  have h2 := clockPositions_handleSeek samplePlayerShortAudio sampleVideo 50 100 60 rfl rfl
    (by norm_num)
  norm_num [haudio, sampleAudio, seekPosition] at h1
  norm_num [hshort, seekPosition] at h2
  rw [hfill, hbar]
  refine ⟨h1, ?_, h2, ?_⟩
  · norm_num
  · norm_num

/-- Claim C1, amended: for every seek-bar width > 0, every pointer offset
with fraction f = offset / width in [0,1] that lands on the bar itself (right
of the fill, so that the bar is the event target) and every primary duration
> 0, with a secondary source bound: `handleSeek` succeeds and the primary
clock position is f * duration, which lies in [0, duration].  The secondary
clock is sent the same target: its position equals the primary position
unless its own duration is shorter than the target, and then it is that
duration. -/
theorem handleSeek_on_bar (s : VideoPlayer) (v a : MediaElement) (bar : SeekBar)
    (pointerX duration f : ℚ)
    (hv : s.videoRef = some v) (ha : s.audioRef = some a)
    (hd : v.duration = JSNum.fin duration) (hdpos : 0 < duration) (hw : 0 < bar.barWidth)
    (hf : f = pointerX / bar.barWidth) (hf0 : 0 ≤ f) (hf1 : f ≤ 1)
    (htarget : bar.fillWidth ≤ pointerX) :
    ∃ s1 v1 a1,
      handleSeek (bar.click pointerX) s = Except.ok s1 ∧
      s1.videoRef = some v1 ∧ s1.audioRef = some a1 ∧
      v1.currentTime = JSNum.fin (f * duration) ∧
      JSNum.le (JSNum.fin 0) v1.currentTime = true ∧
      JSNum.le v1.currentTime v.duration = true ∧
      ((∀ audioDuration : ℚ, a.duration = JSNum.fin audioDuration →
          f * duration ≤ audioDuration) → a1.currentTime = v1.currentTime) ∧
      (∀ audioDuration : ℚ, a.duration = JSNum.fin audioDuration → 0 ≤ audioDuration →
          audioDuration < f * duration → a1.currentTime = JSNum.fin audioDuration) := by
  subst hf
  have hpos : 0 ≤ pointerX / bar.barWidth * duration := mul_nonneg hf0 hdpos.le
  have hle : pointerX / bar.barWidth * duration ≤ duration := mul_le_of_le_one_left hdpos.le hf1
  have hvideo : max 0 (min (pointerX / bar.barWidth * duration) duration)
      = pointerX / bar.barWidth * duration := by
    rw [min_eq_left hle, max_eq_right hpos]
  rw [SeekBar.click_on_bar bar pointerX htarget,
    handleSeek_finite s v pointerX bar.barWidth duration hv hd (ne_of_gt hw)]
  refine ⟨_, { v with currentTime := JSNum.fin (pointerX / bar.barWidth * duration) },
    { a with currentTime :=
        JSNum.fin (seekPosition a.duration (pointerX / bar.barWidth * duration)) },
    rfl, ?_, ?_, rfl, ?_, ?_, ?_, ?_⟩
  · simp [hvideo]
  · simp [ha]
  · simpa [JSNum.le] using hpos
  · simpa [hd, JSNum.le] using hle
  · intro hlong
    cases hdur : a.duration with
    | fin audioDuration =>
        have h := hlong audioDuration hdur
        simp [seekPosition, min_eq_left h, max_eq_right hpos]
    | posInf => simp [seekPosition, max_eq_right hpos]
    | negInf => simp [seekPosition]
    | nan => simp [seekPosition]
  · intro audioDuration hdur hnonneg hshort
    simp [hdur, seekPosition, min_eq_right hshort.le, max_eq_right hnonneg]

/-- Witness of `handleSeek_on_bar`: a click at 25 of 100 pixels, right of a
10-pixel fill, on a 60-second video with a 60-second recording. -/
theorem handleSeek_on_bar_witness :
    ∃ s1 v1 a1,
      handleSeek (SeekBar.click { barWidth := 100, fillWidth := 10 } 25) samplePlayer
        = Except.ok s1 ∧
      s1.videoRef = some v1 ∧ s1.audioRef = some a1 ∧
      v1.currentTime = JSNum.fin (1 / 4 * 60) ∧
      JSNum.le (JSNum.fin 0) v1.currentTime = true ∧
      JSNum.le v1.currentTime sampleVideo.duration = true ∧
      ((∀ audioDuration : ℚ, sampleAudio.duration = JSNum.fin audioDuration →
          1 / 4 * 60 ≤ audioDuration) → a1.currentTime = v1.currentTime) ∧
      (∀ audioDuration : ℚ, sampleAudio.duration = JSNum.fin audioDuration → 0 ≤ audioDuration →
          audioDuration < 1 / 4 * 60 → a1.currentTime = JSNum.fin audioDuration) :=
  handleSeek_on_bar samplePlayer sampleVideo sampleAudio { barWidth := 100, fillWidth := 10 }
    25 60 (1 / 4) rfl rfl rfl (by norm_num) (by norm_num) (by norm_num) (by norm_num)
    (by norm_num) (by norm_num)

/-- Claim C2, counterexample: a 60-second video with a 100-second recording
bound and a 100-pixel bar.  A seek at fraction 3/2 leaves the secondary clock
at 90 seconds, a seek at fraction 1 leaves it at 60 seconds, so the clocks
are not in the same state, and 90 lies outside [0, 60].  With a recording
whose metadata has not loaded, a seek at fraction -1/10 leaves the secondary
clock at -6 seconds and a seek at fraction 0 leaves it at 0. -/
theorem handleSeek_clamps_counterexample :
    (handleSeek { offsetX := JSNum.fin 150, offsetWidth := JSNum.fin 100 }
        samplePlayerLongAudio).map
        clockPositions = Except.ok (some (JSNum.fin 60), some (JSNum.fin 90)) ∧
    (handleSeek { offsetX := JSNum.fin 100, offsetWidth := JSNum.fin 100 }
        samplePlayerLongAudio).map
        clockPositions = Except.ok (some (JSNum.fin 60), some (JSNum.fin 60)) ∧
    (handleSeek { offsetX := JSNum.fin 150, offsetWidth := JSNum.fin 100 }
        samplePlayerLongAudio).map clockStates ≠
      (handleSeek { offsetX := JSNum.fin 100, offsetWidth := JSNum.fin 100 }
        samplePlayerLongAudio).map clockStates ∧
    JSNum.le (JSNum.fin 90) (JSNum.fin 60) = false ∧
    (handleSeek { offsetX := JSNum.fin (-10), offsetWidth := JSNum.fin 100 }
        samplePlayerUnloadedAudio).map
        clockPositions = Except.ok (some (JSNum.fin 0), some (JSNum.fin (-6))) ∧
    (handleSeek { offsetX := JSNum.fin 0, offsetWidth := JSNum.fin 100 }
        samplePlayerUnloadedAudio).map
        clockPositions = Except.ok (some (JSNum.fin 0), some (JSNum.fin 0)) := by
  have hlong : samplePlayerLongAudio.audioRef =
      some { sampleAudio with duration := JSNum.fin 100 } := rfl
  have hunloaded : samplePlayerUnloadedAudio.audioRef =
      some { sampleAudio with duration := JSNum.nan } := rfl
  have hover := clockPositions_handleSeek samplePlayerLongAudio sampleVideo 150 100 60 rfl rfl
    (by norm_num)
  have hone := clockPositions_handleSeek samplePlayerLongAudio sampleVideo 100 100 60 rfl rfl
    (by norm_num)
  have hneg := clockPositions_handleSeek samplePlayerUnloadedAudio sampleVideo (-10) 100 60
    rfl rfl (by norm_num)
  have hzero := clockPositions_handleSeek samplePlayerUnloadedAudio sampleVideo 0 100 60
    rfl rfl (by norm_num)
  have sover := clockStates_handleSeek samplePlayerLongAudio sampleVideo 150 100 60 rfl rfl
    (by norm_num)
  have sone := clockStates_handleSeek samplePlayerLongAudio sampleVideo 100 100 60 rfl rfl
    (by norm_num)
  norm_num [hlong, seekPosition] at hover hone sover sone
  norm_num [hunloaded, seekPosition] at hneg hzero
  refine ⟨hover, hone, ?_, ?_, hneg, hzero⟩
  · rw [sover, sone]
    norm_num
  · norm_num [JSNum.le]

/-- Claim C2, amended: `handleSeek` has no clamp of its own; out-of-range
input is clamped by each media element to its own media.  For every primary
duration > 0, width > 0 and every offset, with no secondary source or one
whose duration is known: the seek succeeds and the primary position lies in
[0, duration]; with a fraction f < 0 the two clocks end in the same state as
after a seek with f = 0; with f > 1 they end in the same state as after a
seek with f = 1 provided the secondary duration, if a secondary source is
bound, does not exceed the primary duration. -/
theorem handleSeek_clamped_by_element (s : VideoPlayer) (v : MediaElement)
    (offset width duration : ℚ)
    (hv : s.videoRef = some v) (hd : v.duration = JSNum.fin duration)
    (hdpos : 0 < duration) (hw : 0 < width)
    (hknown : ∀ a, s.audioRef = some a → JSNum.le (JSNum.fin 0) a.duration = true) :
    (∃ s1 v1,
      handleSeek { offsetX := JSNum.fin offset, offsetWidth := JSNum.fin width } s
        = Except.ok s1 ∧
      s1.videoRef = some v1 ∧
      JSNum.le (JSNum.fin 0) v1.currentTime = true ∧
      JSNum.le v1.currentTime v.duration = true) ∧
    (offset / width < 0 →
      (handleSeek { offsetX := JSNum.fin offset, offsetWidth := JSNum.fin width } s).map
          clockStates =
        (handleSeek { offsetX := JSNum.fin 0, offsetWidth := JSNum.fin width } s).map
          clockStates) ∧
    (1 < offset / width →
      (∀ a, s.audioRef = some a → JSNum.le a.duration (JSNum.fin duration) = true) →
      (handleSeek { offsetX := JSNum.fin offset, offsetWidth := JSNum.fin width } s).map
          clockStates =
        (handleSeek { offsetX := JSNum.fin width, offsetWidth := JSNum.fin width } s).map
          clockStates) := by
  have hwne : width ≠ 0 := ne_of_gt hw
  refine ⟨?_, ?_, ?_⟩
  · rw [handleSeek_finite s v offset width duration hv hd hwne]
    refine ⟨_, { v with
        currentTime := JSNum.fin (max 0 (min (offset / width * duration) duration)) },
      rfl, rfl, ?_, ?_⟩
    · simp [JSNum.le]
    · simp [hd, JSNum.le, hdpos.le]
  · intro hneg
    have ht : offset / width * duration < 0 := mul_neg_of_neg_of_pos hneg hdpos
    rw [clockStates_handleSeek s v offset width duration hv hd hwne,
      clockStates_handleSeek s v 0 width duration hv hd hwne]
    have hvideo : max 0 (min (offset / width * duration) duration)
        = max 0 (min (0 / width * duration) duration) := by
      rw [min_eq_left (ht.le.trans hdpos.le), max_eq_left ht.le]
      simp [hdpos.le]
    rw [hvideo]
    cases ha : s.audioRef with
    | none => rfl
    | some a =>
        have hk := hknown a ha
        cases hdur : a.duration with
        | fin audioDuration =>
            have hnonneg : 0 ≤ audioDuration := by simpa [hdur, JSNum.le] using hk
            simp [hdur, seekPosition, min_eq_left (ht.le.trans hnonneg), max_eq_left ht.le,
              hnonneg]
        | posInf => simp [hdur, seekPosition, max_eq_left ht.le]
        | negInf => simp [hdur, JSNum.le] at hk
        | nan => simp [hdur, JSNum.le] at hk
  · intro hover hshort
    have ht : duration < offset / width * duration := by
      have := mul_lt_mul_of_pos_right hover hdpos
      simpa using this
    have hone : width / width * duration = duration := by
      rw [div_self hwne, one_mul]
    rw [clockStates_handleSeek s v offset width duration hv hd hwne,
      clockStates_handleSeek s v width width duration hv hd hwne, hone]
    have hvideo : max 0 (min (offset / width * duration) duration)
        = max 0 (min duration duration) := by
      rw [min_eq_right ht.le, min_self]
    rw [hvideo]
    cases ha : s.audioRef with
    | none => rfl
    | some a =>
        have hk := hknown a ha
        have hs := hshort a ha
        cases hdur : a.duration with
        | fin audioDuration =>
            have hle : audioDuration ≤ duration := by simpa [hdur, JSNum.le] using hs
            simp [hdur, seekPosition, min_eq_right (hle.trans ht.le), min_eq_right hle]
        | posInf => simp [hdur, JSNum.le] at hs
        | negInf => simp [hdur, JSNum.le] at hk
        | nan => simp [hdur, JSNum.le] at hk

/-- Witness of `handleSeek_clamped_by_element`: a click 10 pixels left of a
100-pixel bar on a 60-second video with a 60-second recording. -/
theorem handleSeek_clamped_by_element_witness :
    (∃ s1 v1,
      handleSeek { offsetX := JSNum.fin (-10), offsetWidth := JSNum.fin 100 } samplePlayer
        = Except.ok s1 ∧
      s1.videoRef = some v1 ∧
      JSNum.le (JSNum.fin 0) v1.currentTime = true ∧
      JSNum.le v1.currentTime sampleVideo.duration = true) ∧
    ((-10 : ℚ) / 100 < 0 →
      (handleSeek { offsetX := JSNum.fin (-10), offsetWidth := JSNum.fin 100 } samplePlayer).map
          clockStates =
        (handleSeek { offsetX := JSNum.fin 0, offsetWidth := JSNum.fin 100 } samplePlayer).map
          clockStates) ∧
    (1 < (-10 : ℚ) / 100 →
      (∀ a, samplePlayer.audioRef = some a → JSNum.le a.duration (JSNum.fin 60) = true) →
      (handleSeek { offsetX := JSNum.fin (-10), offsetWidth := JSNum.fin 100 } samplePlayer).map
          clockStates =
        (handleSeek { offsetX := JSNum.fin 100, offsetWidth := JSNum.fin 100 } samplePlayer).map
          clockStates) :=
  handleSeek_clamped_by_element samplePlayer sampleVideo (-10) 100 60 rfl rfl
    (by norm_num) (by norm_num)
    (by
      intro a ha
      have hsample : samplePlayer.audioRef = some sampleAudio := rfl
      rw [hsample] at ha
      cases ha
      simp [sampleAudio, JSNum.le])

/-! ## VideoPlayer: progress -/

/-- Claim C3: for every duration > 0 and every position with
0 <= position <= duration, `handleProgress` succeeds and sets progress to
100 * position / duration; the result lies in [0, 100] and is the same
whatever the previous progress value was. -/
theorem handleProgress_percentage (s : VideoPlayer) (v : MediaElement) (position : ℚ)
    (hv : s.videoRef = some v) (hp : v.currentTime = JSNum.fin position)
    (hd : JSNum.lt (JSNum.fin 0) v.duration = true)
    (h0 : 0 ≤ position) (hle : JSNum.le (JSNum.fin position) v.duration = true) :
    ∃ s1,
      handleProgress s = Except.ok s1 ∧
      s1.progress = JSNum.div (JSNum.mul (JSNum.fin 100) (JSNum.fin position)) v.duration ∧
      JSNum.le (JSNum.fin 0) s1.progress = true ∧
      JSNum.le s1.progress (JSNum.fin 100) = true ∧
      ∀ previous : JSNum, handleProgress { s with progress := previous } = Except.ok s1 := by
  refine ⟨{ s with
      progress := JSNum.mul (JSNum.div v.currentTime v.duration) (JSNum.fin 100) }, ?_, ?_, ?_, ?_, ?_⟩
  · simp [handleProgress, hv]
  · cases hdur : v.duration with
    | fin d =>
        have hdpos : 0 < d := by simpa [hdur, JSNum.lt] using hd
        simp [hp, JSNum.div, JSNum.mul, ne_of_gt hdpos]
        ring
    | posInf => simp [hp, JSNum.div, JSNum.mul]
    | negInf => simp [hdur, JSNum.lt] at hd
    | nan => simp [hdur, JSNum.lt] at hd
  · cases hdur : v.duration with
    | fin d =>
        have hdpos : 0 < d := by simpa [hdur, JSNum.lt] using hd
        simp [hp, JSNum.div, JSNum.mul, JSNum.le, ne_of_gt hdpos]
        positivity
    | posInf => simp [hp, JSNum.div, JSNum.mul, JSNum.le]
    | negInf => simp [hdur, JSNum.lt] at hd
    | nan => simp [hdur, JSNum.lt] at hd
  · cases hdur : v.duration with
    | fin d =>
        have hdpos : 0 < d := by simpa [hdur, JSNum.lt] using hd
        have hpd : position ≤ d := by simpa [hdur, JSNum.le] using hle
        have hq : position / d ≤ 1 := (div_le_one hdpos).mpr hpd
        simp [hp, JSNum.div, JSNum.mul, JSNum.le, ne_of_gt hdpos]
        linarith
    | posInf => simp [hp, JSNum.div, JSNum.mul, JSNum.le]
    | negInf => simp [hdur, JSNum.lt] at hd
    | nan => simp [hdur, JSNum.lt] at hd
  · intro previous
    simp [handleProgress, hv]

/-- Witness of `handleProgress_percentage`: 15 seconds into a 60-second video. -/
theorem handleProgress_percentage_witness :
    ∃ s1,
      handleProgress
          { samplePlayer with videoRef := some { sampleVideo with currentTime := JSNum.fin 15 } }
        = Except.ok s1 ∧
      s1.progress = JSNum.div (JSNum.mul (JSNum.fin 100) (JSNum.fin 15)) (JSNum.fin 60) ∧
      JSNum.le (JSNum.fin 0) s1.progress = true ∧
      JSNum.le s1.progress (JSNum.fin 100) = true ∧
      ∀ previous : JSNum,
        handleProgress
            { ({ samplePlayer with
                  videoRef := some { sampleVideo with currentTime := JSNum.fin 15 } } :
                VideoPlayer) with progress := previous }
          = Except.ok s1 :=
  handleProgress_percentage
    { samplePlayer with videoRef := some { sampleVideo with currentTime := JSNum.fin 15 } }
    { sampleVideo with currentTime := JSNum.fin 15 } 15 rfl rfl
    (by simp [sampleVideo, JSNum.lt]) (by norm_num) (by simp [sampleVideo, JSNum.le]; norm_num)

/-- Claim C4, counterexample: with the duration not yet known (NaN), and also
with position 0 and duration 0, `handleProgress` stores NaN in progress, not 0. -/
theorem handleProgress_zero_counterexample :
    (handleProgress
        { samplePlayer with videoRef := some { sampleVideo with duration := JSNum.nan } }).map
      (fun s => s.progress) = Except.ok JSNum.nan ∧
    (handleProgress
        { samplePlayer with videoRef := some { sampleVideo with duration := JSNum.fin 0 } }).map
      (fun s => s.progress) = Except.ok JSNum.nan ∧
    JSNum.nan ≠ JSNum.fin 0 := by
  refine ⟨?_, ?_, ?_⟩
  · simp [handleProgress, samplePlayer, sampleVideo, Except.map, JSNum.div, JSNum.mul]
  · simp [handleProgress, samplePlayer, sampleVideo, Except.map, JSNum.div, JSNum.mul]
  · simp

/-- Claim C4, amended: when the primary clock's duration is 0 or not yet
known (NaN), `handleProgress` succeeds and stores the result of the unguarded
division: NaN when the duration is unknown or when position and duration are
both 0, +Infinity when the duration is 0 and the position is positive; the
stored value is never 0. -/
theorem handleProgress_unguarded (s : VideoPlayer) (v : MediaElement) (position : ℚ)
    (hv : s.videoRef = some v) (hp : v.currentTime = JSNum.fin position)
    (h0 : 0 ≤ position) (hd : v.duration = JSNum.nan ∨ v.duration = JSNum.fin 0) :
    ∃ s1,
      handleProgress s = Except.ok s1 ∧
      s1.progress =
        (if v.duration = JSNum.nan ∨ position = 0 then JSNum.nan else JSNum.posInf) ∧
      s1.progress ≠ JSNum.fin 0 := by
  refine ⟨{ s with
      progress := JSNum.mul (JSNum.div v.currentTime v.duration) (JSNum.fin 100) }, ?_, ?_, ?_⟩
  · simp [handleProgress, hv]
  · rcases hd with hd | hd
    · simp [hp, hd, JSNum.div, JSNum.mul]
    · rcases eq_or_lt_of_le h0 with hz | hpos
      · simp [hp, hd, JSNum.div, JSNum.mul, ← hz]
      · simp [hp, hd, JSNum.div, JSNum.mul, ne_of_gt hpos, hpos]
  · rcases hd with hd | hd
    · simp [hp, hd, JSNum.div, JSNum.mul]
    · rcases eq_or_lt_of_le h0 with hz | hpos
      · simp [hp, hd, JSNum.div, JSNum.mul, ← hz]
      · simp [hp, hd, JSNum.div, JSNum.mul, ne_of_gt hpos, hpos]

/-- Witness of `handleProgress_unguarded`: position 0 before the metadata
of the video has loaded. -/
theorem handleProgress_unguarded_witness :
    ∃ s1,
      handleProgress
          { samplePlayer with videoRef := some { sampleVideo with duration := JSNum.nan } }
        = Except.ok s1 ∧
      s1.progress =
        (if ({ sampleVideo with duration := JSNum.nan } : MediaElement).duration = JSNum.nan ∨
            (0 : ℚ) = 0 then JSNum.nan else JSNum.posInf) ∧
      s1.progress ≠ JSNum.fin 0 :=
  handleProgress_unguarded
    { samplePlayer with videoRef := some { sampleVideo with duration := JSNum.nan } }
    { sampleVideo with duration := JSNum.nan } 0 rfl rfl (le_refl 0) (Or.inl rfl)

/-! ## VideoPlayer: play and pause -/

/-- The outcome of two presses of the play button: `isPlaying` ends as the
negation of the video's `paused` flag before the first press, and that flag
is back at its value. -/
theorem togglePlayTwice_spec (s : VideoPlayer) (v : MediaElement) (hv : s.videoRef = some v) :
    ∃ s2,
      togglePlayTwice s = Except.ok s2 ∧ s2.isPlaying = !v.paused ∧ s2.videoRef = some v := by
  cases hpaused : v.paused <;> cases ha : s.audioRef <;>
    simp [togglePlayTwice, togglePlay, hv, hpaused, ha, audioPlay, audioPause,
      MediaElement.play, MediaElement.pause, bind, Except.bind] <;>
    (cases v; simp_all)

/-- Claim C5, counterexample: with isPlaying = true while the video is paused
(the flag does not mirror the clock), two presses of the play button end with
isPlaying = false. -/
theorem togglePlay_twice_counterexample :
    (togglePlayTwice { samplePlayer with isPlaying := true }).map (fun s => s.isPlaying)
        = Except.ok false ∧
    ({ samplePlayer with isPlaying := true } : VideoPlayer).isPlaying = true := by
  constructor
  · rfl
  · rfl

/-- Claim C5, amended: for every playback state in which isPlaying mirrors
the primary clock (isPlaying is true exactly when the video is not paused),
with or without a secondary source, two calls of `togglePlay` in succession
succeed and leave isPlaying, and the video's paused flag, at the values they
had before the first call. -/
theorem togglePlay_twice_restores (s : VideoPlayer) (v : MediaElement)
    (hv : s.videoRef = some v) (hmirror : s.isPlaying = !v.paused) :
    ∃ s2,
      togglePlayTwice s = Except.ok s2 ∧ s2.isPlaying = s.isPlaying ∧
      s2.videoRef.map (fun m => m.paused) = some v.paused := by
  obtain ⟨s2, hrun, hplaying, hvideo⟩ := togglePlayTwice_spec s v hv
  exact ⟨s2, hrun, by rw [hplaying, hmirror], by simp [hvideo]⟩

/-- Witness of `togglePlay_twice_restores`: the player right after mount. -/
theorem togglePlay_twice_restores_witness :
    ∃ s2,
      togglePlayTwice samplePlayer = Except.ok s2 ∧ s2.isPlaying = samplePlayer.isPlaying ∧
      s2.videoRef.map (fun m => m.paused) = some sampleVideo.paused :=
  togglePlay_twice_restores samplePlayer sampleVideo rfl rfl

/-- Claim C6: with no secondary source bound and the primary clock paused,
`togglePlay` completes without an error, leaves the primary clock playing,
sets isPlaying to true, and the only command it issues is `play` on the video:
none goes to the absent secondary clock, whose ref is still null. -/
theorem togglePlay_without_audio (s : VideoPlayer) (v : MediaElement)
    (hv : s.videoRef = some v) (ha : s.audioRef = none) (hpaused : v.paused = true) :
    ∃ s1,
      togglePlay s = Except.ok s1 ∧
      s1.videoRef = some { v with paused := false } ∧
      s1.isPlaying = true ∧
      s1.audioRef = none ∧
      s1.calls = s.calls ++ [Call.play Clock.video] := by
  simp [togglePlay, hv, hpaused, audioPlay, ha, MediaElement.play]

/-- Witness of `togglePlay_without_audio`: the first press of the play
button before any recording was made. -/
theorem togglePlay_without_audio_witness :
    ∃ s1,
      togglePlay samplePlayerNoAudio = Except.ok s1 ∧
      s1.videoRef = some { sampleVideo with paused := false } ∧
      s1.isPlaying = true ∧
      s1.audioRef = none ∧
      s1.calls = samplePlayerNoAudio.calls ++ [Call.play Clock.video] :=
  togglePlay_without_audio samplePlayerNoAudio sampleVideo rfl rfl rfl


/-! ## AudioRecorder: what a capture session publishes -/

/-- Delivering chunks to `ondataavailable` appends the non-empty ones to
`audioChunks` and changes nothing else. -/
theorem run_dataavailable (chunks : List Blob) (s : AudioRecorder) (r : MediaRecorder)
    (hr : s.mediaRecorderRef = some r) :
    s.run (chunks.map RecorderEvent.dataavailable) =
      { s with audioChunks := s.audioChunks ++ chunks.filter (fun c => decide (c.size > 0)) } := by
  induction chunks generalizing s with
  | nil => simp [AudioRecorder.run]
  | cons c rest ih =>
      have hstep : s.step (RecorderEvent.dataavailable c) = ondataavailable c s := by
        simp [AudioRecorder.step, hr]
      simp only [AudioRecorder.run, List.map_cons, List.foldl_cons, hstep] at ih ⊢
      by_cases hc : c.size > 0
      · rw [ih _ (by simpa [ondataavailable, hc] using hr)]
        simp [ondataavailable, hc, List.filter_cons]
      · rw [ih _ (by simpa [ondataavailable, hc] using hr)]
        simp [ondataavailable, hc, List.filter_cons]

/-- The state after one whole capture session started from an idle recorder:
the buffer has grown by the session's non-empty chunks, and the published
artifact is made of the buffer as it was when the session started. -/
theorem run_captureSession (chunks : List Blob) (s : AudioRecorder)
    (hidle : s.isRecording = false) :
    s.run (captureSession chunks) =
      { audioChunks := s.audioChunks ++ chunks.filter (fun c => decide (c.size > 0))
        mediaRecorderRef := some { recording := false, onstopChunks := s.audioChunks }
        isRecording := false
        audioSrc := some (Blob.ofParts s.audioChunks) } := by
  have hsplit : s.run (captureSession chunks) =
      ((((s.step (RecorderEvent.click true)).step (RecorderEvent.click true)).run
        (chunks.map RecorderEvent.dataavailable)).step RecorderEvent.stop) := by
    simp [AudioRecorder.run, captureSession, List.foldl_append]
  rw [hsplit, run_dataavailable chunks _ { recording := false, onstopChunks := s.audioChunks }
    (by simp [AudioRecorder.step, hidle, startRecording, stopRecording])]
  simp [AudioRecorder.step, hidle, startRecording, stopRecording, onstop]

/-- Claim C7, the code at the failing input: the first capture session
receives the non-empty chunk [1, 2, 3], yet the artifact published at its
`stop` event is the empty blob; the chunk only reached the buffer. -/
theorem first_session_artifact_is_empty :
    (AudioRecorder.initial.run (captureSession [[1, 2, 3]])).audioSrc = some [] ∧
    (AudioRecorder.initial.run (captureSession [[1, 2, 3]])).audioChunks = [[1, 2, 3]] := by
  constructor <;> rfl

/-- Claim C8, the code at the failing input: after a first session that
received the chunk [1], the buffer holds [1] when the second session starts,
and the second session, which received the chunk [2], publishes the blob [1]. -/
theorem second_session_publishes_first :
    (AudioRecorder.initial.run (captureSession [[1]])).audioChunks = [[1]] ∧
    ((AudioRecorder.initial.run (captureSession [[1]])).step
        (RecorderEvent.click true)).audioChunks = [[1]] ∧
    ((AudioRecorder.initial.run (captureSession [[1]])).run (captureSession [[2]])).audioSrc
      = some [1] := by
  refine ⟨?_, ?_, ?_⟩ <;> rfl

/-! ## DialogueDisplay: editing the current entry -/

/-- An in-range write is the replacement of one element. -/
theorem Dialogues.assign_inRange (arr : Dialogues) (i : Nat) (v : DialogueEntry)
    (hlt : i < arr.length) : arr.assign (i : Int) v = arr.set i (some v) := by
  have hnonneg : ¬ ((i : Int) < 0) := by omega
  simp [Dialogues.assign, hlt, hnonneg]

/-- An in-range write keeps the length of the array. -/
theorem Dialogues.length_assign (arr : Dialogues) (i : Nat) (v : DialogueEntry)
    (hlt : i < arr.length) : (arr.assign (i : Int) v).length = arr.length := by
  simp [Dialogues.assign_inRange arr i v hlt]

/-- An in-range write leaves every other element as it was. -/
theorem Dialogues.get_assign_ne (arr : Dialogues) (i j : Nat) (v : DialogueEntry)
    (hlt : i < arr.length) (hne : j ≠ i) : (arr.assign (i : Int) v)[j]? = arr[j]? := by
  simp [Dialogues.assign_inRange arr i v hlt, List.getElem?_set, Ne.symm hne]

/-- An in-range write puts the written object at its index. -/
theorem Dialogues.get_assign_eq (arr : Dialogues) (i : Nat) (v : DialogueEntry)
    (hlt : i < arr.length) : (arr.assign (i : Int) v)[i]? = some (some v) := by
  simp [Dialogues.assign_inRange arr i v hlt, List.getElem?_set, hlt]

/-- An in-range read of an object gives that object. -/
theorem Dialogues.read_of_get (arr : Dialogues) (i : Nat) (entry : DialogueEntry)
    (hentry : arr[i]? = some (some entry)) : arr.read (i : Int) = some entry := by
  have hnonneg : ¬ ((i : Int) < 0) := by omega
  simp [Dialogues.read, hentry, hnonneg]

/-- Claim C9: for every dialogue list and every cursor index i inside it,
the list produced by `handleOriginalTextChange` (respectively
`handleTranslatedTextChange`) has the same length, every entry j other than i
is unchanged, and entry i has the new value in the edited field and its other
field unchanged. -/
theorem dialogue_edit_frame (s : DialogueDisplay) (value : String) (i : Nat)
    (entry : DialogueEntry)
    (hi : s.currentDialogueIndex = (i : Int)) (hlt : i < s.dialogues.length)
    (hentry : s.dialogues[i]? = some (some entry)) :
    ((handleOriginalTextChange value s).dialogues.length = s.dialogues.length ∧
      (∀ j : Nat, j ≠ i → (handleOriginalTextChange value s).dialogues[j]? = s.dialogues[j]?) ∧
      (handleOriginalTextChange value s).dialogues[i]? =
        some (some { original := some value, translated := entry.translated })) ∧
    ((handleTranslatedTextChange value s).dialogues.length = s.dialogues.length ∧
      (∀ j : Nat, j ≠ i → (handleTranslatedTextChange value s).dialogues[j]? = s.dialogues[j]?) ∧
      (handleTranslatedTextChange value s).dialogues[i]? =
        some (some { original := entry.original, translated := some value })) := by
  have hread := Dialogues.read_of_get s.dialogues i entry hentry
  simp only [handleOriginalTextChange, handleTranslatedTextChange, hi, hread, spread]
  exact ⟨⟨Dialogues.length_assign _ i _ hlt,
      fun j hj => Dialogues.get_assign_ne _ i j _ hlt hj,
      Dialogues.get_assign_eq _ i _ hlt⟩,
    ⟨Dialogues.length_assign _ i _ hlt,
      fun j hj => Dialogues.get_assign_ne _ i j _ hlt hj,
      Dialogues.get_assign_eq _ i _ hlt⟩⟩


/-- Witness of `dialogue_edit_frame`: the second of the initial dialogues
is edited. -/
theorem dialogue_edit_frame_witness :
    ((handleOriginalTextChange "Fine." sampleDisplay).dialogues.length
        = sampleDisplay.dialogues.length ∧
      (∀ j : Nat, j ≠ 1 →
        (handleOriginalTextChange "Fine." sampleDisplay).dialogues[j]?
          = sampleDisplay.dialogues[j]?) ∧
      (handleOriginalTextChange "Fine." sampleDisplay).dialogues[1]? =
        some (some { original := some "Fine.", translated := some "Estoy bien, gracias." })) ∧
    ((handleTranslatedTextChange "Fine." sampleDisplay).dialogues.length
        = sampleDisplay.dialogues.length ∧
      (∀ j : Nat, j ≠ 1 →
        (handleTranslatedTextChange "Fine." sampleDisplay).dialogues[j]?
          = sampleDisplay.dialogues[j]?) ∧
      (handleTranslatedTextChange "Fine." sampleDisplay).dialogues[1]? =
        some (some { original := some "I'm fine, thank you.", translated := some "Fine." })) :=
  dialogue_edit_frame sampleDisplay "Fine." 1
    { original := some "I'm fine, thank you.", translated := some "Estoy bien, gracias." }
    rfl (by simp [sampleDisplay, App.initialDialogues]) rfl

/-! ## Navigation -/

/-- Claim C10: for every non-empty dialogue list and every cursor index in
[0, length-1], the Next and Previous handlers produce a cursor index in
[0, length-1]; Next at index length-1 and Previous at index 0 leave the
cursor unchanged, otherwise they move it by exactly one; neither changes the
list.  On the 5-entry list of `App`, starting at 0, four Next presses give 4
and a fifth still gives 4. -/
theorem navigation_clamped (s : Navigation)
    (hne : s.dialogues ≠ []) (h0 : 0 ≤ s.currentDialogueIndex)
    (h1 : s.currentDialogueIndex ≤ (s.dialogues.length : Int) - 1) :
    (0 ≤ s.next.currentDialogueIndex ∧
      s.next.currentDialogueIndex ≤ (s.next.dialogues.length : Int) - 1) ∧
    (0 ≤ s.previous.currentDialogueIndex ∧
      s.previous.currentDialogueIndex ≤ (s.previous.dialogues.length : Int) - 1) ∧
    (s.currentDialogueIndex = (s.dialogues.length : Int) - 1 → s.next = s) ∧
    (s.currentDialogueIndex = 0 → s.previous = s) ∧
    (s.currentDialogueIndex < (s.dialogues.length : Int) - 1 →
      s.next.currentDialogueIndex = s.currentDialogueIndex + 1) ∧
    (0 < s.currentDialogueIndex →
      s.previous.currentDialogueIndex = s.currentDialogueIndex - 1) ∧
    s.next.dialogues = s.dialogues ∧ s.previous.dialogues = s.dialogues ∧
    (Navigation.nextTimes 4 Navigation.initial).currentDialogueIndex = 4 ∧
    (Navigation.nextTimes 5 Navigation.initial).currentDialogueIndex = 4 := by
  have hlen : 0 < s.dialogues.length := List.length_pos.mpr hne
  refine ⟨⟨?_, ?_⟩, ⟨?_, ?_⟩, ?_, ?_, ?_, ?_, rfl, rfl, ?_, ?_⟩
  · simp only [Navigation.next]; omega
  · simp only [Navigation.next]; omega
  · simp only [Navigation.previous]; omega
  · simp only [Navigation.previous]; omega
  · intro h
    cases s
    simp only [Navigation.next, Navigation.mk.injEq, and_true] at h ⊢
    omega
  · intro h
    cases s
    simp only [Navigation.previous, Navigation.mk.injEq, and_true] at h ⊢
    omega
  · intro h
    simp only [Navigation.next]; omega
  · intro h
    simp only [Navigation.previous]; omega
  · simp [Navigation.nextTimes, Navigation.next, Navigation.initial, App.initialDialogues]
  · simp [Navigation.nextTimes, Navigation.next, Navigation.initial, App.initialDialogues]

/-- Witness of `navigation_clamped`: the navigation state of `App` at mount. -/
theorem navigation_clamped_witness :
    (0 ≤ Navigation.initial.next.currentDialogueIndex ∧
      Navigation.initial.next.currentDialogueIndex
        ≤ (Navigation.initial.next.dialogues.length : Int) - 1) ∧
    (0 ≤ Navigation.initial.previous.currentDialogueIndex ∧
      Navigation.initial.previous.currentDialogueIndex
        ≤ (Navigation.initial.previous.dialogues.length : Int) - 1) ∧
    (Navigation.initial.currentDialogueIndex = (Navigation.initial.dialogues.length : Int) - 1 →
      Navigation.initial.next = Navigation.initial) ∧
    (Navigation.initial.currentDialogueIndex = 0 →
      Navigation.initial.previous = Navigation.initial) ∧
    (Navigation.initial.currentDialogueIndex < (Navigation.initial.dialogues.length : Int) - 1 →
      Navigation.initial.next.currentDialogueIndex
        = Navigation.initial.currentDialogueIndex + 1) ∧
    (0 < Navigation.initial.currentDialogueIndex →
      Navigation.initial.previous.currentDialogueIndex
        = Navigation.initial.currentDialogueIndex - 1) ∧
    Navigation.initial.next.dialogues = Navigation.initial.dialogues ∧
    Navigation.initial.previous.dialogues = Navigation.initial.dialogues ∧
    (Navigation.nextTimes 4 Navigation.initial).currentDialogueIndex = 4 ∧
    (Navigation.nextTimes 5 Navigation.initial).currentDialogueIndex = 4 :=
  navigation_clamped Navigation.initial
    (by simp [Navigation.initial, App.initialDialogues])
    (by simp [Navigation.initial])
    (by simp [Navigation.initial, App.initialDialogues])


end GoQuest
